import Mathlib

/-!
# Verification of the investment-assistant frontend data contract

Shallow embedding of the opportunity store, fetch lifecycle, filter/search
engine, aggregate stats and chat operations of the `investment-assistant`
frontend (`src/frontend/src/pages/Opportunities.jsx`,
`src/frontend/src/pages/Home.jsx`, and the single-page `App` component in
`src/unnamed/part_003`), together with proofs of the spec's testable
properties.

Numbers are modelled as rationals (`ℚ`); the one place where JavaScript's
`NaN` matters (division by the store length in the average-confidence stat)
is modelled explicitly with a `JsNum` type that has a `nan` element.
Each asynchronous handler is modelled as a pure function from the component
state and the outcomes of its network requests to the resulting state.
-/

namespace InvestmentAssistant

/-- Result of one `axios` request: either a response (with its body) or a
thrown error (network failure or non-2xx status) carrying a message. -/
inductive FetchResult (α : Type) where
  | success (data : α)
  | failure (msg : String)
  deriving Repr, DecidableEq

/-- An opportunity record as consumed by the frontend.  `id` is `none` for
rows that were never persisted; `price` is `none` when absent or
non-numeric (`parseFloat` would yield `NaN`, which `|| 0` maps to 0). -/
structure Opportunity where
  id : Option Nat
  ticker : String
  setup_type : String
  price : Option ℚ
  confidence_score : ℚ
  deriving Repr, DecidableEq

/-- `needle` is a prefix of `hay` (character-for-character match). -/
def firstMatch : List Char → List Char → Bool
  | [], _ => true
  | _ :: _, [] => false
  | a :: as, b :: bs => a == b && firstMatch as bs

/-- JavaScript `String.prototype.includes` on char lists: `needle` occurs
contiguously somewhere in `hay`. -/
def containsSub : List Char → List Char → Bool
  | [], needle => needle.isEmpty
  | a :: t, needle => firstMatch needle (a :: t) || containsSub t needle

/-- `hay.includes(needle)` on strings. -/
def jsIncludes (hay needle : String) : Bool :=
  containsSub hay.data needle.data

/-- JavaScript `String.prototype.toLowerCase` (the code only feeds it
ASCII ticker and setup-type labels): lower-case every character. -/
def jsToLower (s : String) : String :=
  String.mk (s.data.map Char.toLower)

/-- The search predicate of `filteredOpportunities`
(`Opportunities.jsx` lines 114-116): empty search matches everything,
otherwise case-insensitive substring match on ticker or setup type. -/
def matchesSearch (searchTerm : String) (o : Opportunity) : Bool :=
  searchTerm == "" ||
    jsIncludes (jsToLower o.ticker) (jsToLower searchTerm) ||
    jsIncludes (jsToLower o.setup_type) (jsToLower searchTerm)

/-- The category predicate of `filteredOpportunities`
(`Opportunities.jsx` lines 118-121). -/
def matchesFilter (filterType : String) (o : Opportunity) : Bool :=
  filterType == "all" ||
    (filterType == "bullish" &&
      (jsIncludes (jsToLower o.setup_type) "bullish" ||
       jsIncludes (jsToLower o.setup_type) "momentum")) ||
    (filterType == "bearish" &&
      (jsIncludes (jsToLower o.setup_type) "short" ||
       jsIncludes (jsToLower o.setup_type) "bear")) ||
    (filterType == "high-confidence" &&
      decide ((7 : ℚ) / 10 ≤ o.confidence_score))

/-- `filteredOpportunities` (`Opportunities.jsx` lines 113-124): keep the
store entries matching both the search text and the category filter. -/
def filteredOpportunities (opportunities : List Opportunity)
    (searchTerm filterType : String) : List Opportunity :=
  opportunities.filter fun o =>
    matchesSearch searchTerm o && matchesFilter filterType o

/-- A JavaScript number specialised to the values the stats code can
produce: a rational, or `NaN`. -/
inductive JsNum where
  | num (q : ℚ)
  | nan
  deriving Repr, DecidableEq

/-- JavaScript division: division by zero yields `NaN` here (the operands
in the embedded code are finite and the numerator is never 0 with a 0
denominator in the infinity-producing way; in `stats.avgConfidence` the
denominator is a list length and the numerator a finite sum, so `0/0 = NaN`
is the only non-finite case reachable). -/
def jsDiv (a b : ℚ) : JsNum :=
  if b = 0 then JsNum.nan else JsNum.num (a / b)

/-- `Math.round`: round half toward positive infinity; `NaN` propagates. -/
def jsRound : JsNum → JsNum
  | JsNum.nan => JsNum.nan
  | JsNum.num q => JsNum.num ((⌊q + 1 / 2⌋ : ℤ) : ℚ)

/-- The reduce in `stats.avgConfidence` (`part_003` line 146):
`opportunities.reduce((sum, opp) => sum + (opp.confidence_score * 100), 0)`. -/
def sumConfTimes100 (opportunities : List Opportunity) : ℚ :=
  opportunities.foldl (fun sum o => sum + o.confidence_score * 100) 0

/-- The `stats` object of the single-page `App` (`part_003` lines 143-150). -/
structure AppStats where
  totalOpportunities : Nat
  avgConfidence : JsNum
  highConfidence : Nat
  totalValue : ℚ
  deriving Repr, DecidableEq

/-- `stats` derivation of `part_003` lines 143-150.  `avgConfidence` guards
the division by the store length behind `opportunities.length > 0`;
`highConfidence` counts entries with `confidence_score * 100 >= 70`;
`totalValue` sums `parseFloat(price) || 0` (non-numeric prices as 0). -/
def computeStats (opportunities : List Opportunity) : AppStats :=
  { totalOpportunities := opportunities.length
    avgConfidence :=
      if opportunities.length > 0 then
        jsRound (jsDiv (sumConfTimes100 opportunities) opportunities.length)
      else JsNum.num 0
    highConfidence :=
      (opportunities.filter fun o =>
        decide ((70 : ℚ) ≤ o.confidence_score * 100)).length
    totalValue :=
      opportunities.foldl (fun sum o => sum + o.price.getD 0) 0 }

/-- The `stats` state of the Home dashboard (`Home.jsx` lines 15-20). -/
structure HomeStats where
  totalOpportunities : Nat
  highConfidence : Nat
  bullishSetups : Nat
  bearishSetups : Nat
  deriving Repr, DecidableEq

/-- Stats computed inside `loadDashboardData` (`Home.jsx` lines 41-46).
Note the strict `opp.confidence_score > 0.7` on line 43. -/
def computeHomeStats (opps : List Opportunity) : HomeStats :=
  { totalOpportunities := opps.length
    highConfidence :=
      (opps.filter fun o => decide ((7 : ℚ) / 10 < o.confidence_score)).length
    bullishSetups :=
      (opps.filter fun o =>
        jsIncludes (jsToLower o.setup_type) "bullish" ||
        jsIncludes (jsToLower o.setup_type) "momentum").length
    bearishSetups :=
      (opps.filter fun o =>
        jsIncludes (jsToLower o.setup_type) "short" ||
        jsIncludes (jsToLower o.setup_type) "bear").length }

/-- State of the Opportunities page (`Opportunities.jsx` lines 13-22),
restricted to the hooks the fetch lifecycle touches, plus an explicit
console log so `console.error` calls are observable in the model. -/
structure OppPageState where
  opportunities : List Opportunity
  loading : Bool
  error : Option String
  isAgentRunning : Bool
  agentStatus : String
  lastAnalysisTime : Option String
  consoleLog : List String
  deriving Repr, DecidableEq

/-- `checkAgentHealth` (`Opportunities.jsx` lines 29-38): the health probe
sets `agentStatus` to `connected` on success; on failure it sets
`disconnected` and records a connection error message. -/
def checkAgentHealth (s : OppPageState) (health : FetchResult Unit) :
    OppPageState :=
  match health with
  | FetchResult.success _ => { s with agentStatus := "connected" }
  | FetchResult.failure _ =>
      { s with agentStatus := "disconnected"
               error := some "Unable to connect to Technical Researcher Agent" }

/-- `loadExistingOpportunities` (`Opportunities.jsx` lines 40-51, identical
in `part_003` lines 47-58): on success replace the store with
`response.data || []`; on failure the catch block only writes
`console.error('Failed to load existing opportunities:', err.message)` —
no state hook is touched. -/
def loadExistingOpportunities (s : OppPageState)
    (r : FetchResult (Option (List Opportunity))) : OppPageState :=
  match r with
  | FetchResult.success data => { s with opportunities := data.getD [] }
  | FetchResult.failure msg =>
      { s with consoleLog :=
          s.consoleLog ++ ["Failed to load existing opportunities: " ++ msg] }

/-- `runTechnicalAnalysis` (`Opportunities.jsx` lines 53-85, identical in
`part_003` lines 60-92): set `loading`/`isAgentRunning`, clear the error,
POST `/research` (response body discarded), then GET `/opportunities` and
commit its body; any failure is caught into the error banner; the
`finally` block clears `loading` and `isAgentRunning` on every path. -/
def runTechnicalAnalysis (s : OppPageState)
    (trigger : FetchResult (List Opportunity))
    (listR : FetchResult (Option (List Opportunity)))
    (now : String) : OppPageState :=
  let s0 : OppPageState :=
    { s with loading := true, error := none, isAgentRunning := true }
  let s1 : OppPageState :=
    match trigger with
    | FetchResult.failure msg =>
        { s0 with error := some ("Failed to fetch trading opportunities: " ++ msg) }
    | FetchResult.success _ =>
        match listR with
        | FetchResult.failure msg =>
            { s0 with error := some ("Failed to fetch trading opportunities: " ++ msg) }
        | FetchResult.success data =>
            { s0 with opportunities := data.getD []
                      lastAnalysisTime := some now }
  { s1 with loading := false, isAgentRunning := false }

/-- State of the Home dashboard page (`Home.jsx` lines 13-20). -/
structure HomeState where
  opportunities : List Opportunity
  agentStatus : String
  stats : HomeStats
  consoleLog : List String
  deriving Repr, DecidableEq

/-- `loadDashboardData` (`Home.jsx` lines 26-52): one `try` block performs
the health check (setting `agentStatus` to `connected`), then the
opportunity list fetch, then the stats computation; the shared `catch`
sets `agentStatus` to `disconnected` whichever request failed. -/
def loadDashboardData (s : HomeState) (health : FetchResult Unit)
    (listR : FetchResult (Option (List Opportunity))) : HomeState :=
  match health with
  | FetchResult.failure _ =>
      { s with agentStatus := "disconnected"
               consoleLog := s.consoleLog ++ ["Failed to load dashboard data"] }
  | FetchResult.success _ =>
      match listR with
      | FetchResult.failure _ =>
          { s with agentStatus := "disconnected"
                   consoleLog := s.consoleLog ++ ["Failed to load dashboard data"] }
      | FetchResult.success data =>
          let opps := data.getD []
          { s with agentStatus := "connected"
                   opportunities := opps
                   stats := computeHomeStats opps }

/-- A chat transcript entry (`part_003` lines 97 and 111). -/
structure ChatMsg where
  role : String
  content : String
  deriving Repr, DecidableEq

/-- Chat-relevant state of the single-page `App` (`part_003` lines 18-19). -/
structure ChatState where
  chatMessages : List ChatMsg
  chatInput : String
  deriving Repr, DecidableEq

/-- A character JavaScript `String.prototype.trim` strips. -/
def isJsWhitespace (c : Char) : Bool :=
  c == ' ' || c == '\t' || c == '\n' || c == '\r' ||
  c == '\x0b' || c == '\x0c' || c == ' '

/-- JavaScript `trim`: drop leading and trailing whitespace. -/
def jsTrim (s : String) : String :=
  String.mk (((s.data.dropWhile isJsWhitespace).reverse.dropWhile
    isJsWhitespace).reverse)

/-- `sendChatMessage` (`part_003` lines 94-117): early-return when the
trimmed input is empty (falsy); otherwise append the user message, clear
the input, POST `/chat`, and append either the assistant response or an
inline error message.  The returned `Bool` records whether the HTTP
request was issued. -/
def sendChatMessage (s : ChatState) (r : FetchResult String) :
    ChatState × Bool :=
  if jsTrim s.chatInput == "" then (s, false)
  else
    let s1 : ChatState :=
      { chatMessages := s.chatMessages ++ [{ role := "user", content := s.chatInput }]
        chatInput := "" }
    match r with
    | FetchResult.success resp =>
        ({ s1 with chatMessages :=
            s1.chatMessages ++ [{ role := "assistant", content := resp }] }, true)
    | FetchResult.failure msg =>
        ({ s1 with chatMessages :=
            s1.chatMessages ++
              [{ role := "assistant"
                 content := "Sorry, I encountered an error: " ++ msg }] }, true)

/-! ## Example records used by witnesses and counterexamples
(the store of spec §8 scenario 6, plus a boundary entry at exactly 0.7
confidence and an unpersisted row without an id). -/

def oppA : Opportunity :=
  { id := some 1, ticker := "AAPL", setup_type := "Bullish Momentum",
    price := some 150, confidence_score := 85 / 100 }

def oppT : Opportunity :=
  { id := some 2, ticker := "TSLA", setup_type := "Short Squeeze",
    price := some 200, confidence_score := 55 / 100 }

def oppP7 : Opportunity :=
  { id := some 3, ticker := "MSFT", setup_type := "Breakout",
    price := some 300, confidence_score := 7 / 10 }

def oppNoId : Opportunity :=
  { id := none, ticker := "NVDA", setup_type := "Breakout",
    price := some 100, confidence_score := 9 / 10 }

def exOppState : OppPageState :=
  { opportunities := [oppA], loading := false, error := none,
    isAgentRunning := false, agentStatus := "connected",
    lastAnalysisTime := none, consoleLog := [] }

def exHomeState : HomeState :=
  { opportunities := [], agentStatus := "checking",
    stats := { totalOpportunities := 0, highConfidence := 0,
               bullishSetups := 0, bearishSetups := 0 },
    consoleLog := [] }

/-! ## Helper lemmas about the filter predicates and substring search -/

theorem matchesSearch_empty (o : Opportunity) : matchesSearch "" o = true := rfl

theorem matchesFilter_all (o : Opportunity) : matchesFilter "all" o = true := rfl

theorem matchesFilter_highConfidence (o : Opportunity) :
    matchesFilter "high-confidence" o =
      decide ((7 : ℚ) / 10 ≤ o.confidence_score) := rfl

theorem filteredOpportunities_highConf_empty_search (store : List Opportunity) :
    filteredOpportunities store "" "high-confidence" =
      store.filter fun o => decide ((7 : ℚ) / 10 ≤ o.confidence_score) := by
  unfold filteredOpportunities
  apply List.filter_congr
  intro o _
  simp only [matchesSearch_empty, matchesFilter_highConfidence, Bool.true_and]

theorem firstMatch_append (n h t : List Char) (hm : firstMatch n h = true) :
    firstMatch n (h ++ t) = true := by
  induction n generalizing h with
  | nil => simp [firstMatch]
  | cons a as ih =>
    cases h with
    | nil => simp [firstMatch] at hm
    | cons b bs =>
      simp only [firstMatch, Bool.and_eq_true] at hm
      simp only [List.cons_append, firstMatch, Bool.and_eq_true]
      exact ⟨hm.1, ih bs hm.2⟩

theorem containsSub_nil_needle (h : List Char) : containsSub h [] = true := by
  cases h <;> simp [containsSub, firstMatch]

theorem containsSub_append_left (h t n : List Char)
    (hc : containsSub h n = true) : containsSub (h ++ t) n = true := by
  induction h with
  | nil =>
    simp only [containsSub, List.isEmpty_iff] at hc
    subst hc
    simpa using containsSub_nil_needle t
  | cons a as ih =>
    simp only [containsSub, Bool.or_eq_true] at hc
    rcases hc with hm | hc
    · simp only [List.cons_append, containsSub, Bool.or_eq_true]
      exact Or.inl (firstMatch_append n (a :: as) t hm)
    · simp only [List.cons_append, containsSub, Bool.or_eq_true]
      exact Or.inr (ih hc)

theorem jsIncludes_append_left (a b n : String)
    (hj : jsIncludes a n = true) : jsIncludes (a ++ b) n = true := by
  unfold jsIncludes at hj ⊢
  have hd : (a ++ b).data = a.data ++ b.data := rfl
  rw [hd]
  exact containsSub_append_left a.data b.data n.data hj

/-! ## Claim theorems -/

/-- C1 (counterexample): the Home-dashboard high-confidence stat
(`Home.jsx` line 43, `opp.confidence_score > 0.7`) does NOT count an
opportunity whose confidence score is exactly 0.7, so the aggregate-stats
derivation does not count "high confidence" exactly at `>= 0.7`: on the
one-element store `[oppP7]` (confidence exactly 7/10) the stat is 0 while
the number of entries with confidence ≥ 0.7 is 1. -/
theorem home_highConfidence_strict_at_boundary :
    oppP7.confidence_score = 7 / 10 ∧
    (computeHomeStats [oppP7]).highConfidence = 0 ∧
    ([oppP7].filter fun o =>
      decide ((7 : ℚ) / 10 ≤ o.confidence_score)).length = 1 := by
  refine ⟨rfl, ?_, ?_⟩
  · show (List.filter _ [oppP7]).length = 0
    rw [List.filter_cons]
    norm_num [oppP7]
  · rw [List.filter_cons]
    norm_num [oppP7]

/-- C1 (amended): the single-page `App` stats (`part_003` line 148,
`(confidence_score * 100) >= 70`) count exactly the entries with
confidence score ≥ 0.7 (an entry at exactly 0.7 is counted), while the
Home-dashboard stat (`Home.jsx` line 43) uses the strict comparison
`> 0.7` and counts exactly the entries with confidence score > 0.7. -/
theorem highConfidence_stat_thresholds (opps : List Opportunity) :
    (computeStats opps).highConfidence =
      (opps.filter fun o => decide ((7 : ℚ) / 10 ≤ o.confidence_score)).length ∧
    (computeHomeStats opps).highConfidence =
      (opps.filter fun o => decide ((7 : ℚ) / 10 < o.confidence_score)).length := by
  constructor
  · show (opps.filter fun o =>
      decide ((70 : ℚ) ≤ o.confidence_score * 100)).length = _
    congr 1
    apply List.filter_congr
    intro o _
    rw [decide_eq_decide]
    constructor <;> intro hcmp <;> linarith
  · rfl

/-- C2 (counterexample): when the list fetch of
`loadExistingOpportunities` fails, the store is indeed left untouched but
NO error message is recorded in UI state: from a state with `error = none`
the failing call leaves `error = none` (the catch block only writes to the
console). -/
theorem loadExisting_failure_no_ui_error :
    (loadExistingOpportunities exOppState
        (FetchResult.failure "Network Error")).opportunities =
      exOppState.opportunities ∧
    ¬ ∃ e, (loadExistingOpportunities exOppState
        (FetchResult.failure "Network Error")).error = some e := by
  refine ⟨rfl, ?_⟩
  rintro ⟨e, he⟩
  exact Option.noConfusion he

/-- C2 (amended): when a list fetch fails, `loadExistingOpportunities`
leaves every piece of component state exactly as it was — in particular
the store is never partially mutated and the UI error state is unchanged —
and the only effect is a console-log line
`Failed to load existing opportunities: <msg>`, which mentions
"opportunities"; the failure is absorbed by the catch block (the model is
a total function, with no exception outcome). -/
theorem loadExisting_failure_frame (s : OppPageState) (msg : String) :
    loadExistingOpportunities s (FetchResult.failure msg) =
      { s with consoleLog :=
          s.consoleLog ++ ["Failed to load existing opportunities: " ++ msg] } ∧
    jsIncludes ("Failed to load existing opportunities: " ++ msg)
      "opportunities" = true :=
  ⟨rfl, jsIncludes_append_left _ msg _ (by decide)⟩

/-- C3 (counterexample): with filter type "high-confidence" but a search
term matching nothing, `oppA` (confidence 0.85 ≥ 0.7) is in the store yet
excluded from the filtered result, refuting "every store item excluded
from the result has confidence_score < 0.7". -/
theorem highConfidence_filter_search_excluded :
    oppA ∈ ([oppA] : List Opportunity) ∧
    oppA ∉ filteredOpportunities [oppA] "zzz" "high-confidence" ∧
    ¬ (oppA.confidence_score < 7 / 10) := by
  refine ⟨by simp, ?_, by norm_num [oppA]⟩
  intro hmem
  have hev : filteredOpportunities [oppA] "zzz" "high-confidence" = [] := by
    decide
  rw [hev] at hmem
  exact List.not_mem_nil _ hmem

/-- C3 (amended): when the filter type is "high-confidence", every item of
the filtered result has confidence score ≥ 0.7, and every store item that
is excluded despite matching the search text has confidence score < 0.7
(an excluded item may instead simply fail the search-text match; with an
empty search term every exclusion is by confidence). -/
theorem highConfidence_filter_sound (store : List Opportunity)
    (searchTerm : String) :
    (∀ o ∈ filteredOpportunities store searchTerm "high-confidence",
        (7 : ℚ) / 10 ≤ o.confidence_score) ∧
    (∀ o ∈ store,
        o ∉ filteredOpportunities store searchTerm "high-confidence" →
        matchesSearch searchTerm o = true →
        o.confidence_score < 7 / 10) := by
  constructor
  · intro o ho
    have hp := (List.mem_filter.mp ho).2
    rw [Bool.and_eq_true, matchesFilter_highConfidence] at hp
    exact of_decide_eq_true hp.2
  · intro o ho hno hs
    by_contra hlt
    push_neg at hlt
    apply hno
    refine List.mem_filter.mpr ⟨ho, ?_⟩
    rw [Bool.and_eq_true, matchesFilter_highConfidence]
    exact ⟨hs, decide_eq_true hlt⟩

/-- C3 (witness): on the spec's scenario store `[oppA, oppT]` with empty
search, the amended theorem yields 0.7 ≤ 0.85 for the included `oppA` and
0.55 < 0.7 for the excluded `oppT`. -/
theorem highConfidence_filter_sound_witness :
    (7 : ℚ) / 10 ≤ oppA.confidence_score ∧ oppT.confidence_score < 7 / 10 := by
  have hmem : oppA ∈ filteredOpportunities [oppA, oppT] "" "high-confidence" := by
    rw [filteredOpportunities_highConf_empty_search]
    refine List.mem_filter.mpr ⟨by simp, ?_⟩
    norm_num [oppA]
  have hnmem : oppT ∉ filteredOpportunities [oppA, oppT] "" "high-confidence" := by
    rw [filteredOpportunities_highConf_empty_search]
    intro hmemT
    have hd := (List.mem_filter.mp hmemT).2
    norm_num [oppT] at hd
  exact ⟨(highConfidence_filter_sound [oppA, oppT] "").1 oppA hmem,
         (highConfidence_filter_sound [oppA, oppT] "").2 oppT (by simp) hnmem rfl⟩

/-- C4: after a successful run of `runTechnicalAnalysis` the store equals
the body of the follow-up GET `/opportunities` — whatever opportunity list
the trigger POST `/research` returned is never committed — and therefore,
when the list endpoint returns only id-bearing rows, every entry of the
resulting store has an id. -/
theorem runAnalysis_commits_list_body (s : OppPageState)
    (trig listData : List Opportunity) (now : String)
    (h : ∀ o ∈ listData, o.id.isSome = true) :
    (runTechnicalAnalysis s (FetchResult.success trig)
        (FetchResult.success (some listData)) now).opportunities = listData ∧
    ∀ o ∈ (runTechnicalAnalysis s (FetchResult.success trig)
        (FetchResult.success (some listData)) now).opportunities,
      o.id.isSome = true := by
  refine ⟨rfl, ?_⟩
  intro o ho
  exact h o ho

/-- C4 (witness): even when the trigger response carries an id-less row
(`oppNoId`), the store after the run holds exactly the id-bearing list
body `[oppA]`. -/
theorem runAnalysis_commits_list_body_witness :
    (runTechnicalAnalysis exOppState (FetchResult.success [oppNoId])
        (FetchResult.success (some [oppA])) "10:00:00 AM").opportunities =
      [oppA] :=
  (runAnalysis_commits_list_body exOppState [oppNoId] [oppA] "10:00:00 AM"
    (by decide)).1

/-- C5 (counterexample): in the Home dashboard the health check and the
list fetch share one try/catch, so a failing list fetch after a successful
health check sets `agentStatus` to "disconnected" — the outcome of the
list fetch alone changes the agent-connection status field. -/
theorem dashboard_status_list_failure :
    (loadDashboardData exHomeState (FetchResult.success ())
        (FetchResult.failure "Request failed with status code 500")).agentStatus
      = "disconnected" ∧
    (loadDashboardData exHomeState (FetchResult.success ())
        (FetchResult.success (some []))).agentStatus = "connected" :=
  ⟨rfl, rfl⟩

/-- C5 (amended): on the Opportunities page a list-fetch failure (or any
outcome of `loadExistingOpportunities` or `runTechnicalAnalysis`) leaves
`agentStatus` untouched — there the field is governed only by
`checkAgentHealth` — but in the Home dashboard a list-fetch failure inside
`loadDashboardData` sets `agentStatus` to "disconnected", because the
health check and the list fetch share a single error handler. -/
theorem agentStatus_frame (s : OppPageState)
    (r : FetchResult (Option (List Opportunity)))
    (trigger : FetchResult (List Opportunity)) (now : String)
    (sh : HomeState) (msg : String) :
    (loadExistingOpportunities s r).agentStatus = s.agentStatus ∧
    (runTechnicalAnalysis s trigger r now).agentStatus = s.agentStatus ∧
    (loadDashboardData sh (FetchResult.success ())
        (FetchResult.failure msg)).agentStatus = "disconnected" := by
  refine ⟨?_, ?_, rfl⟩
  · cases r <;> rfl
  · cases trigger with
    | failure m => rfl
    | success d => cases r <;> rfl

/-- C6: for every store, search term and filter type, the filtered view is
a subsequence of the store (so each result item occurs in the store, in
the store's relative order) and no item occurs more often in the result
than in the store. -/
theorem filteredOpportunities_sublist (store : List Opportunity)
    (searchTerm filterType : String) :
    List.Sublist (filteredOpportunities store searchTerm filterType) store ∧
    ∀ o : Opportunity,
      (filteredOpportunities store searchTerm filterType).count o ≤
        store.count o :=
  ⟨List.filter_sublist store,
   fun o => (List.filter_sublist store).subperm.count_le o⟩

/-- C7: the average-confidence statistic is 0 on the empty store, is never
`NaN` on any store (the division by the store length is guarded), and on a
non-empty store equals the mean of `confidence_score * 100` rounded half
up to the nearest integer. -/
theorem avgConfidence_guarded (opps : List Opportunity) :
    (computeStats []).avgConfidence = JsNum.num 0 ∧
    (computeStats opps).avgConfidence ≠ JsNum.nan ∧
    (opps ≠ [] →
      (computeStats opps).avgConfidence =
        JsNum.num ((⌊sumConfTimes100 opps / (opps.length : ℚ) + 1 / 2⌋ : ℤ) : ℚ)) := by
  refine ⟨rfl, ?_, ?_⟩
  · simp only [computeStats]
    by_cases hl : 0 < opps.length
    · rw [if_pos hl]
      have hq : ((opps.length : ℚ)) ≠ 0 :=
        Nat.cast_ne_zero.mpr (Nat.pos_iff_ne_zero.mp hl)
      rw [jsDiv, if_neg hq]
      exact fun hcon => JsNum.noConfusion hcon
    · rw [if_neg hl]
      exact fun hcon => JsNum.noConfusion hcon
  · intro hne
    have hl : 0 < opps.length := List.length_pos.mpr hne
    simp only [computeStats]
    rw [if_pos hl]
    have hq : ((opps.length : ℚ)) ≠ 0 :=
      Nat.cast_ne_zero.mpr (Nat.pos_iff_ne_zero.mp hl)
    rw [jsDiv, if_neg hq]
    rfl

/-- C7 (witness): the non-emptiness hypothesis discharged on the
one-element store `[oppA]`. -/
theorem avgConfidence_guarded_witness :
    ([oppA] : List Opportunity) ≠ [] ∧
    (computeStats [oppA]).avgConfidence =
      JsNum.num ((⌊sumConfTimes100 [oppA] /
        (([oppA] : List Opportunity).length : ℚ) + 1 / 2⌋ : ℤ) : ℚ) :=
  ⟨by simp, (avgConfidence_guarded [oppA]).2.2 (by simp)⟩

/-- C8: filtering with the empty search term and filter type "all" is the
identity on the store. -/
theorem filteredOpportunities_identity (store : List Opportunity) :
    filteredOpportunities store "" "all" = store := by
  apply List.filter_eq_self.mpr
  intro o _
  simp only [matchesSearch_empty, matchesFilter_all, Bool.and_self]

/-- C9: every execution of `runTechnicalAnalysis` — trigger failure, list
failure, or full success — ends with `loading = false` and
`isAgentRunning = false` (the `finally` block always runs), releasing the
disable-while-running guard of the Run Analysis control. -/
theorem runAnalysis_clears_flags (s : OppPageState)
    (trigger : FetchResult (List Opportunity))
    (listR : FetchResult (Option (List Opportunity))) (now : String) :
    (runTechnicalAnalysis s trigger listR now).loading = false ∧
    (runTechnicalAnalysis s trigger listR now).isAgentRunning = false := by
  cases trigger with
  | failure m => exact ⟨rfl, rfl⟩
  | success d => cases listR <;> exact ⟨rfl, rfl⟩

/-- C10: when the chat input trims to the empty string, `sendChatMessage`
is a no-op: the state (message list and input field) is returned unchanged
and no HTTP request is issued (the `Bool` component is `false`). -/
theorem sendChat_blank_noop (s : ChatState) (r : FetchResult String)
    (h : jsTrim s.chatInput = "") :
    sendChatMessage s r = (s, false) := by
  unfold sendChatMessage
  rw [if_pos]
  exact beq_iff_eq.mpr h

/-- C10 (witness): the all-whitespace input "   " trims to empty and the
operation leaves the chat state unchanged without issuing a request. -/
theorem sendChat_blank_noop_witness :
    jsTrim "   " = "" ∧
    sendChatMessage { chatMessages := [], chatInput := "   " }
      (FetchResult.success "hello") =
      ({ chatMessages := [], chatInput := "   " }, false) :=
  ⟨by decide, sendChat_blank_noop { chatMessages := [], chatInput := "   " }
    (FetchResult.success "hello") (by decide)⟩

end InvestmentAssistant
